import Mathlib

/-!
Verification of the adaptive frame-render controller of
`src/wezterm-gui/src/termwindow/render/paint.rs`.

The controller is embedded shallowly: the mutable fields of `TermWindow`
that `paint_impl` touches become a `TermWindowState` record; the outcomes
of the external collaborators (one `paint_pass` attempt together with the
results of `allocated_more_quads` and `recreate_texture_atlas`) become a
`PassOutcome` oracle value, one per loop iteration; the `'pass` loop is run
against a finite list of such outcomes (the observation window), returning
`none` from `paint_impl` when the loop has not exited within that window.
Every externally visible call the controller makes (building geometry,
recreating the atlas, invalidating overlay caches, issuing the draw call,
arming an animation timer) is recorded as an `Action` in order.

Timestamps and durations are modelled as rationals (seconds).
-/

namespace Paint

/-- Mirrors `enum AllowImage { Yes, Scale(usize), No }` from paint.rs. -/
inductive AllowImage : Type where
  | Yes : AllowImage
  | Scale : Nat → AllowImage
  | No : AllowImage
  deriving DecidableEq, Repr

/-- The degradation step performed inline in `paint_impl` when atlas
recreation fails:
`Yes → Scale(2) → Scale(4) → Scale(8) → No`, and `No | _ =>` break,
modelled as `none` (exhausted).  The wildcard arm of the source match
also sends any `Scale` factor outside {2,4,8} to `none`. -/
def stepDownAllowImage : AllowImage → Option AllowImage
  | AllowImage.Yes => some (AllowImage.Scale 2)
  | AllowImage.Scale 2 => some (AllowImage.Scale 4)
  | AllowImage.Scale 4 => some (AllowImage.Scale 8)
  | AllowImage.Scale 8 => some AllowImage.No
  | _ => none

/-- Iterated application of `stepDownAllowImage`; `none` once the ladder
is exhausted. -/
def iterStepDown : Nat → AllowImage → Option AllowImage
  | 0, a => some a
  | n + 1, a =>
      match stepDownAllowImage a with
      | some b => iterStepDown n b
      | none => none

/-- The mutable window state read or written by `paint_impl`.
`shape_cache` and `line_to_ele_shape_cache` carry abstract entries (their
contents are irrelevant to the controller; clearing empties them);
`fancy_tab_bar_valid` / `modal_valid` model the cached overlay geometry
dropped by `invalidate_fancy_tab_bar` / `invalidate_modal`. -/
structure TermWindowState : Type where
  num_frames : Nat
  fps : ℚ
  last_fps_check_time : ℚ
  last_frame_duration : ℚ
  allow_images : AllowImage
  has_animation : Option ℚ
  scheduled_animation : Option ℚ
  focused : Bool
  shape_generation : Nat
  shape_cache : List Nat
  line_to_ele_shape_cache : List Nat
  fancy_tab_bar_valid : Bool
  modal_valid : Bool
  dirty_rects : List Nat
  deriving DecidableEq, Repr

/-- Externally visible calls made by the controller, in program order. -/
inductive Action : Type where
  | buildFrameGeometry : AllowImage → Action
  | recreateAtlas : Nat → Action
  | invalidateTabBar : Action
  | invalidateModal : Action
  | bumpShapeGeneration : Action
  | clearShapeCaches : Action
  | issueDrawCall : Action
  | armTimer : ℚ → Action
  deriving DecidableEq, Repr

/-- Oracle value describing what the collaborators do on one iteration of
the `'pass` loop: the result of `paint_pass` and, where relevant, of
`allocated_more_quads` and `recreate_texture_atlas`.
`okNoGrowth`/`okGrowth`/`okQuadsErr` are `Ok(_)` with
`allocated_more_quads` returning `Ok(false)`/`Ok(true)`/`Err`;
`oots size current recreateOk` is an error whose root cause is
`OutOfTextureSpace { size, current_size }` with `recreateOk` the success
of the recreation call (unused when `size` is `none`);
`cacheStale` is an error whose root cause is `ClearShapeCache`;
`otherFailure` is any other error. -/
inductive PassOutcome : Type where
  | okNoGrowth : PassOutcome
  | okGrowth : PassOutcome
  | okQuadsErr : PassOutcome
  | oots : Option Nat → Nat → Bool → PassOutcome
  | cacheStale : PassOutcome
  | otherFailure : PassOutcome
  deriving DecidableEq, Repr

/-- Effect of `invalidate_fancy_tab_bar(); invalidate_modal();`. -/
def invalidateOverlays (s : TermWindowState) : TermWindowState :=
  { s with fancy_tab_bar_valid := false, modal_valid := false }

/-- One iteration of the `'pass` loop body (paint.rs lines 40-106) at pass
counter `p` in state `s` under collaborator outcome `o`.  Returns the new
state, the actions performed, and whether the loop continues (`true`) or
breaks (`false`). -/
def passStep (p : Nat) (s : TermWindowState) (o : PassOutcome) :
    TermWindowState × List Action × Bool :=
  match o with
  | PassOutcome.okNoGrowth => (s, [Action.buildFrameGeometry s.allow_images], false)
  | PassOutcome.okGrowth =>
      (invalidateOverlays s,
       [Action.buildFrameGeometry s.allow_images, Action.invalidateTabBar,
        Action.invalidateModal], true)
  | PassOutcome.okQuadsErr => (s, [Action.buildFrameGeometry s.allow_images], false)
  | PassOutcome.oots none _ _ => (s, [Action.buildFrameGeometry s.allow_images], false)
  | PassOutcome.oots (some size) current recreateOk =>
      let target := if p = 0 then current else size
      let s1 := invalidateOverlays s
      let acts := [Action.buildFrameGeometry s.allow_images, Action.recreateAtlas target,
                   Action.invalidateTabBar, Action.invalidateModal]
      if recreateOk then (s1, acts, true)
      else
        match stepDownAllowImage s.allow_images with
        | some lvl => ({ s1 with allow_images := lvl }, acts, true)
        | none => (s1, acts, false)
  | PassOutcome.cacheStale =>
      let s1 := invalidateOverlays s
      ({ s1 with shape_generation := s1.shape_generation + 1,
                 shape_cache := [], line_to_ele_shape_cache := [] },
       [Action.buildFrameGeometry s.allow_images, Action.invalidateTabBar,
        Action.invalidateModal, Action.bumpShapeGeneration, Action.clearShapeCaches],
       true)
  | PassOutcome.otherFailure => (s, [Action.buildFrameGeometry s.allow_images], false)

/-- The `'pass: for pass in 0..` loop, observed along a finite list of
collaborator outcomes.  The third component is `true` when the loop exited
(via some `break 'pass`) and `false` when the outcome list was exhausted
with the loop still running. -/
def runLoop : Nat → TermWindowState → List PassOutcome →
    TermWindowState × List Action × Bool
  | _, s, [] => (s, [], false)
  | p, s, o :: rest =>
      match passStep p s o with
      | (s1, acts, true) =>
          match runLoop (p + 1) s1 rest with
          | (s2, acts2, exited) => (s2, acts ++ acts2, exited)
      | (s1, acts, false) => (s1, acts, true)

/-- The FPS refresh check at the top of `paint_impl` (paint.rs lines
29-37): given the current `num_frames`, `last_fps_check_time` and `fps`
and the instant `start`, returns their new values.  Recomputes exactly
when the elapsed time strictly exceeds one second. -/
def fps_check (num_frames : Nat) (last_check : ℚ) (fps : ℚ) (start : ℚ) :
    Nat × ℚ × ℚ :=
  let diff := start - last_check
  if 1 < diff then (0, start, (num_frames : ℚ) / diff)
  else (num_frames, last_check, fps)

/-- The animation-scheduling tail of `paint_impl` (paint.rs lines
123-145), as a function of the focus flag, the `has_animation` value and
the current `scheduled_animation`: returns the new `scheduled_animation`
and the timer-arming actions.  Mirrors the source exactly: the pending
value is first `take`n out, and in the `prior <= next_due` arm nothing is
put back. -/
def schedule_animation (focused : Bool) (has_anim : Option ℚ)
    (sched : Option ℚ) : Option ℚ × List Action :=
  if focused then
    match has_anim with
    | some next_due =>
        match sched with
        | some prior =>
            if prior ≤ next_due then (none, [])
            else (some next_due, [Action.armTimer next_due])
        | none => (some next_due, [Action.armTimer next_due])
    | none => (sched, [])
  else (sched, [])

/-- The entry mutations of `paint_impl` (paint.rs lines 18-37): bump
`num_frames`, reset `has_animation`, reset the fidelity to `Yes`, clear the
dirty rectangles, then run the FPS refresh check at instant `start`. -/
def preLoopState (s : TermWindowState) (start : ℚ) : TermWindowState :=
  let s0 := { s with num_frames := s.num_frames + 1, has_animation := none,
                     allow_images := AllowImage.Yes,
                     dirty_rects := ([] : List Nat) }
  let f := fps_check s0.num_frames s0.last_fps_check_time s0.fps start
  { s0 with num_frames := f.1, last_fps_check_time := f.2.1, fps := f.2.2 }

/-- `paint_impl` (paint.rs lines 17-146).  `start` is `Instant::now()` at
entry; `script` the per-iteration collaborator outcomes; `dueAfter` the
value the drawing collaborator left in `has_animation` by the time the
loop exited; `elapsed` the value of `start.elapsed()` at the end;
`drawOk` whether `call_draw` succeeded (its result is discarded by
`.ok()`).  Returns `none` when the loop did not exit within `script`. -/
def paint_impl (s : TermWindowState) (start : ℚ) (script : List PassOutcome)
    (dueAfter : Option ℚ) (elapsed : ℚ) (drawOk : Bool) :
    Option (TermWindowState × List Action) :=
  match runLoop 0 (preLoopState s start) script with
  | (s2, acts, true) =>
      let _ := drawOk
      let s3 := { s2 with last_frame_duration := elapsed, has_animation := dueAfter }
      let sched := schedule_animation s3.focused s3.has_animation s3.scheduled_animation
      some ({ s3 with scheduled_animation := sched.1 },
            acts ++ [Action.issueDrawCall] ++ sched.2)
  | (_, _, false) => none

/-- Number of `buildFrameGeometry` calls in an action list. -/
def buildCount : List Action → Nat
  | [] => 0
  | Action.buildFrameGeometry _ :: rest => buildCount rest + 1
  | _ :: rest => buildCount rest

/-- Number of `issueDrawCall` calls in an action list. -/
def drawCount : List Action → Nat
  | [] => 0
  | Action.issueDrawCall :: rest => drawCount rest + 1
  | _ :: rest => drawCount rest

/-- Number of `armTimer` calls in an action list. -/
def armCount : List Action → Nat
  | [] => 0
  | Action.armTimer _ :: rest => armCount rest + 1
  | _ :: rest => armCount rest

/-- Number of `recreateAtlas` calls in an action list. -/
def recreateCount : List Action → Nat
  | [] => 0
  | Action.recreateAtlas _ :: rest => recreateCount rest + 1
  | _ :: rest => recreateCount rest

/-- A concrete window state used to instantiate universally quantified
theorems. -/
def initState : TermWindowState :=
  { num_frames := 0, fps := 0, last_fps_check_time := 0,
    last_frame_duration := 0, allow_images := AllowImage.Yes,
    has_animation := none, scheduled_animation := none, focused := true,
    shape_generation := 0, shape_cache := [], line_to_ele_shape_cache := [],
    fancy_tab_bar_valid := true, modal_valid := true, dirty_rects := [] }

theorem buildCount_append (a b : List Action) :
    buildCount (a ++ b) = buildCount a + buildCount b := by
  induction a with
  | nil => simp [buildCount]
  | cons x xs ih => cases x <;> simp [buildCount, ih] <;> omega

theorem drawCount_append (a b : List Action) :
    drawCount (a ++ b) = drawCount a + drawCount b := by
  induction a with
  | nil => simp [drawCount]
  | cons x xs ih => cases x <;> simp [drawCount, ih] <;> omega

theorem recreateCount_append (a b : List Action) :
    recreateCount (a ++ b) = recreateCount a + recreateCount b := by
  induction a with
  | nil => simp [recreateCount]
  | cons x xs ih => cases x <;> simp [recreateCount, ih] <;> omega

/-- One-step unfolding of `runLoop` on a nonempty script. -/
theorem runLoop_cons (p : Nat) (s : TermWindowState) (o : PassOutcome)
    (rest : List PassOutcome) :
    runLoop p s (o :: rest) =
      if (passStep p s o).2.2 then
        ((runLoop (p + 1) (passStep p s o).1 rest).1,
         (passStep p s o).2.1 ++ (runLoop (p + 1) (passStep p s o).1 rest).2.1,
         (runLoop (p + 1) (passStep p s o).1 rest).2.2)
      else ((passStep p s o).1, (passStep p s o).2.1, true) := by
  rcases hp : passStep p s o with ⟨s1, acts, cont⟩
  cases cont
  · simp [runLoop, hp]
  · rcases hr : runLoop (p + 1) s1 rest with ⟨s2, acts2, ex⟩
    simp [runLoop, hp, hr]

/-- The animation scheduler emits either no action or a single timer arm. -/
theorem sched_actions_shape (f : Bool) (h q : Option ℚ) :
    (schedule_animation f h q).2 = [] ∨
      ∃ t, (schedule_animation f h q).2 = [Action.armTimer t] := by
  cases f with
  | false => exact Or.inl rfl
  | true =>
      cases h with
      | none => exact Or.inl rfl
      | some t =>
          cases q with
          | none => exact Or.inr ⟨t, rfl⟩
          | some prior =>
              by_cases hle : prior ≤ t
              · exact Or.inl (by simp [schedule_animation, hle])
              · exact Or.inr ⟨t, by simp [schedule_animation, hle]⟩

theorem drawCount_sched (f : Bool) (h q : Option ℚ) :
    drawCount (schedule_animation f h q).2 = 0 := by
  rcases sched_actions_shape f h q with h1 | ⟨t, h1⟩ <;> simp [h1, drawCount]

theorem buildCount_sched (f : Bool) (h q : Option ℚ) :
    buildCount (schedule_animation f h q).2 = 0 := by
  rcases sched_actions_shape f h q with h1 | ⟨t, h1⟩ <;> simp [h1, buildCount]

theorem recreateCount_sched (f : Bool) (h q : Option ℚ) :
    recreateCount (schedule_animation f h q).2 = 0 := by
  rcases sched_actions_shape f h q with h1 | ⟨t, h1⟩ <;> simp [h1, recreateCount]

/-- No iteration of the pass loop issues the final draw call. -/
theorem drawCount_passStep (p : Nat) (s : TermWindowState) (o : PassOutcome) :
    drawCount (passStep p s o).2.1 = 0 := by
  cases o with
  | okNoGrowth => rfl
  | okGrowth => rfl
  | okQuadsErr => rfl
  | oots sz cur b =>
      cases sz with
      | none => rfl
      | some size =>
          cases b with
          | true => rfl
          | false =>
              cases h : stepDownAllowImage s.allow_images with
              | some lvl => simp [passStep, h, drawCount]
              | none => simp [passStep, h, drawCount]
  | cacheStale => rfl
  | otherFailure => rfl

theorem drawCount_runLoop (script : List PassOutcome) (p : Nat)
    (s : TermWindowState) : drawCount (runLoop p s script).2.1 = 0 := by
  induction script generalizing p s with
  | nil => rfl
  | cons o rest ih =>
      rw [runLoop_cons]
      by_cases hc : (passStep p s o).2.2 = true
      · rw [if_pos hc]
        have h1 := drawCount_passStep p s o
        have h2 := ih (p + 1) (passStep p s o).1
        simp [drawCount_append, h1, h2]
      · rw [if_neg (by simpa using hc)]
        exact drawCount_passStep p s o

/-- Claim C4: the degradation step is a total deterministic function (it is
a Lean function, hence deterministic and total on `AllowImage`) forming the
chain Full → Reduced(2) → Reduced(4) → Reduced(8) → Disabled, with Disabled
mapping to the exhausted signal (`none`); starting from Full, four
applications reach Disabled and the fifth always yields exhaustion. -/
theorem stepDown_chain :
    stepDownAllowImage AllowImage.Yes = some (AllowImage.Scale 2) ∧
    stepDownAllowImage (AllowImage.Scale 2) = some (AllowImage.Scale 4) ∧
    stepDownAllowImage (AllowImage.Scale 4) = some (AllowImage.Scale 8) ∧
    stepDownAllowImage (AllowImage.Scale 8) = some AllowImage.No ∧
    stepDownAllowImage AllowImage.No = none ∧
    iterStepDown 4 AllowImage.Yes = some AllowImage.No ∧
    iterStepDown 5 AllowImage.Yes = none :=
  ⟨rfl, rfl, rfl, rfl, rfl, rfl, rfl⟩

/-- Claim C8: when the window is not focused, the animation-scheduling tail
of `paint_impl` arms no timer and leaves the pending wake untouched, for
every `due` value (including `none` and past instants). -/
theorem unfocused_no_timer (due sched : Option ℚ) :
    schedule_animation false due sched = (sched, []) := rfl

/-- Claim C7: the FPS estimate is recomputed if and only if the elapsed
time since the previous check strictly exceeds one second; on recomputation
`fps` becomes the frame count divided by the elapsed seconds, the count
resets to 0 and the check time becomes the current instant; otherwise all
three values are unchanged. -/
theorem fps_check_spec (n : Nat) (last fps start : ℚ) :
    (1 < start - last →
      fps_check n last fps start = (0, start, (n : ℚ) / (start - last))) ∧
    (start - last ≤ 1 → fps_check n last fps start = (n, last, fps)) := by
  constructor
  · intro h; simp [fps_check, h]
  · intro h; simp [fps_check, not_lt.mpr h]

/-- Witness for `fps_check_spec` at concrete inputs: elapsed 2 s recomputes
(3 frames over 2 s give 3/2), elapsed exactly 1 s does not. -/
theorem fps_check_spec_witness :
    fps_check 3 0 7 2 = (0, 2, 3 / 2) ∧ fps_check 3 0 7 1 = (3, 0, 7) := by
  constructor
  · have h := (fps_check_spec 3 0 7 2).1 (by norm_num)
    simpa using h
  · have h := (fps_check_spec 3 0 7 1).2 (by norm_num)
    simpa using h

/-- Claim C9: on a `ClearShapeCache` error the loop invalidates the tab-bar
and modal caches, increments the shape-cache generation, clears both
shape-derived caches, and continues looping with the fidelity level
unchanged. -/
theorem cacheStale_recovery (p : Nat) (s : TermWindowState) :
    passStep p s PassOutcome.cacheStale =
      ({ s with fancy_tab_bar_valid := false, modal_valid := false,
                shape_generation := s.shape_generation + 1,
                shape_cache := [], line_to_ele_shape_cache := [] },
       [Action.buildFrameGeometry s.allow_images, Action.invalidateTabBar,
        Action.invalidateModal, Action.bumpShapeGeneration,
        Action.clearShapeCaches], true) ∧
    (passStep p s PassOutcome.cacheStale).1.allow_images = s.allow_images :=
  ⟨rfl, rfl⟩

/-- Claim C2: on `OutOfTextureSpace` carrying a requested size, the loop
recreates the atlas at `current_size` on pass 0 and at the requested size on
later passes, invalidating the tab-bar and modal caches in either case and
whether or not recreation succeeds; a failed recreation steps the fidelity
down exactly one level and continues, except that an exhausted ladder
(`stepDownAllowImage` returning `none`, in particular from `No`) breaks the
loop.  The final conjuncts check the spec scenario: pass 0 returns
`ResourceExhausted(requested = 4096, current = 2048)`, recreation at 2048
fails, fidelity becomes `Scale 2` and a second geometry build at `Scale 2`
occurs. -/
theorem resourceExhausted_recovery (p : Nat) (s : TermWindowState)
    (size current : Nat) :
    (passStep p s (PassOutcome.oots (some size) current true) =
      (invalidateOverlays s,
       [Action.buildFrameGeometry s.allow_images,
        Action.recreateAtlas (if p = 0 then current else size),
        Action.invalidateTabBar, Action.invalidateModal], true)) ∧
    (passStep p s (PassOutcome.oots (some size) current false) =
      match stepDownAllowImage s.allow_images with
      | some lvl =>
          ({ invalidateOverlays s with allow_images := lvl },
           [Action.buildFrameGeometry s.allow_images,
            Action.recreateAtlas (if p = 0 then current else size),
            Action.invalidateTabBar, Action.invalidateModal], true)
      | none =>
          (invalidateOverlays s,
           [Action.buildFrameGeometry s.allow_images,
            Action.recreateAtlas (if p = 0 then current else size),
            Action.invalidateTabBar, Action.invalidateModal], false)) ∧
    (passStep p { s with allow_images := AllowImage.No }
      (PassOutcome.oots (some size) current false)).2.2 = false ∧
    (runLoop 0 initState
      [PassOutcome.oots (some 4096) 2048 false, PassOutcome.okNoGrowth]).2.1 =
      [Action.buildFrameGeometry AllowImage.Yes, Action.recreateAtlas 2048,
       Action.invalidateTabBar, Action.invalidateModal,
       Action.buildFrameGeometry (AllowImage.Scale 2)] ∧
    (runLoop 0 initState
      [PassOutcome.oots (some 4096) 2048 false,
       PassOutcome.okNoGrowth]).1.allow_images = AllowImage.Scale 2 :=
  ⟨rfl, rfl, rfl, by decide, by decide⟩

/-- Claim C10: an out-of-texture-space error with no requested size is not
recovered: the pass leaves the state untouched (no cache invalidation, no
fidelity change), performs no atlas recreation, and breaks the loop like
any other failure; the final draw call is still issued exactly once
afterwards. -/
theorem oots_none_no_recovery (p : Nat) (s : TermWindowState) (current : Nat)
    (b : Bool) :
    (passStep p s (PassOutcome.oots none current b) =
      (s, [Action.buildFrameGeometry s.allow_images], false)) ∧
    ∀ (start : ℚ) (rest : List PassOutcome) (due : Option ℚ) (elapsed : ℚ)
      (dOk : Bool),
      ∃ r, paint_impl s start (PassOutcome.oots none current b :: rest) due
            elapsed dOk = some r ∧
        drawCount r.2 = 1 ∧ recreateCount r.2 = 0 ∧ buildCount r.2 = 1 := by
  refine ⟨rfl, ?_⟩
  intro start rest due elapsed dOk
  refine ⟨_, rfl, ?_, ?_, ?_⟩
  · simp [drawCount_append, drawCount, drawCount_sched]
  · simp [recreateCount_append, recreateCount, recreateCount_sched]
  · simp [buildCount_append, buildCount, buildCount_sched]

/-- Claim C5: whenever the first pass succeeds without geometry growth (no
`ResourceExhausted`, no `CacheStale`, no growth reported), `paint_impl`
performs exactly one geometry build and exactly one draw call. -/
theorem clean_frame_single_pass (s : TermWindowState) (start : ℚ)
    (rest : List PassOutcome) (due : Option ℚ) (elapsed : ℚ) (dOk : Bool) :
    ∃ r, paint_impl s start (PassOutcome.okNoGrowth :: rest) due elapsed dOk =
          some r ∧
      buildCount r.2 = 1 ∧ drawCount r.2 = 1 := by
  refine ⟨_, rfl, ?_, ?_⟩
  · simp [buildCount_append, buildCount, buildCount_sched]
  · simp [drawCount_append, drawCount, drawCount_sched]

/-- Claim C6: the result of `paint_impl` is independent of whether the
final draw call succeeds (its error is discarded by `.ok()`, so no failure
propagates), and on every loop exit the draw call is issued exactly once
and the frame duration is recorded in `last_frame_duration`. -/
theorem paint_draw_once (s : TermWindowState) (start : ℚ)
    (script : List PassOutcome) (due : Option ℚ) (elapsed : ℚ) :
    (∀ dOk1 dOk2 : Bool,
      paint_impl s start script due elapsed dOk1 =
        paint_impl s start script due elapsed dOk2) ∧
    ∀ (dOk : Bool) (r : TermWindowState × List Action),
      paint_impl s start script due elapsed dOk = some r →
      drawCount r.2 = 1 ∧ r.1.last_frame_duration = elapsed := by
  refine ⟨fun _ _ => rfl, ?_⟩
  intro dOk r h
  rcases hr : runLoop 0 (preLoopState s start) script with ⟨s2, acts, ex⟩
  cases ex with
  | false =>
      rw [paint_impl, hr] at h
      exact absurd h (by simp)
  | true =>
      rw [paint_impl, hr] at h
      simp only [Option.some.injEq] at h
      subst h
      constructor
      · have h1 : drawCount acts = 0 := by
          have h2 := drawCount_runLoop script 0 (preLoopState s start)
          rw [hr] at h2
          exact h2
        simp [drawCount_append, drawCount, h1, drawCount_sched]
      · rfl

/-- Witness for `paint_draw_once`: a concrete clean frame, with the
hypothesis discharged by evaluation. -/
theorem paint_draw_once_witness :
    drawCount ({ initState with num_frames := 1, last_frame_duration := 7 },
      [Action.buildFrameGeometry AllowImage.Yes, Action.issueDrawCall]).2 = 1 ∧
    ({ initState with num_frames := 1, last_frame_duration := 7 } :
        TermWindowState).last_frame_duration = 7 :=
  (paint_draw_once initState 0 [PassOutcome.okNoGrowth] none 7).2 true
    ({ initState with num_frames := 1, last_frame_duration := 7 },
     [Action.buildFrameGeometry AllowImage.Yes, Action.issueDrawCall])
    (by norm_num [paint_impl, preLoopState, fps_check, runLoop, passStep,
                  schedule_animation, initState])

/-- Claim C1 counterexample: with an armed pending wake at `t1 = 0` and a
new due time `t2 = 1 ≥ t1` under focus, the scheduler arms no timer but the
pending wake is NOT left unchanged: the source `take`s the prior value and
never restores it, so the pending wake ends up empty. -/
theorem pendingWake_unchanged_counterexample :
    (schedule_animation true (some 1) (some 0)).1 = none ∧
    (schedule_animation true (some 1) (some 0)).1 ≠ some 0 ∧
    (schedule_animation true (some 1) (some 0)).2 = [] := by
  refine ⟨by decide, by decide, by decide⟩

/-- Claim C1 (amended): with an armed pending wake at `t1` and focus, a new
due time `t2 ≥ t1` arms no new timer but clears the pending wake (it is
taken and not restored); a due time `t2 < t1` replaces the pending wake
with `t2` and arms exactly one new timer. -/
theorem pendingWake_dedup (t1 t2 : ℚ) :
    (t1 ≤ t2 → schedule_animation true (some t2) (some t1) = (none, [])) ∧
    (t2 < t1 →
      schedule_animation true (some t2) (some t1) =
        (some t2, [Action.armTimer t2])) := by
  constructor
  · intro h; simp [schedule_animation, h]
  · intro h; simp [schedule_animation, not_le.mpr h]

/-- Witness for `pendingWake_dedup` at `t1 = 0, t2 = 1` (dedup direction)
and `t1 = 1, t2 = 0` (replacement direction). -/
theorem pendingWake_dedup_witness :
    schedule_animation true (some 1) (some 0) = (none, []) ∧
    schedule_animation true (some 0) (some 1) =
      (some 0, [Action.armTimer 0]) :=
  ⟨(pendingWake_dedup 0 1).1 (by norm_num),
   (pendingWake_dedup 1 0).2 (by norm_num)⟩

/-- Claim C3 counterexample: the loop has no maximum-iterations guard; a
collaborator that returns `CacheStale` six times in a row keeps the loop
running past the claimed five-retry bound, having performed six geometry
builds with no exit. -/
theorem loop_guard_counterexample :
    (runLoop 0 initState (List.replicate 6 PassOutcome.cacheStale)).2.2 =
      false ∧
    buildCount
      (runLoop 0 initState (List.replicate 6 PassOutcome.cacheStale)).2.1 =
      6 := by
  refine ⟨by decide, by decide⟩

theorem cacheStale_never_exits (n : Nat) :
    ∀ (p : Nat) (s : TermWindowState),
      (runLoop p s (List.replicate n PassOutcome.cacheStale)).2.2 = false := by
  induction n with
  | zero => intro p s; rfl
  | succ k ih =>
      intro p s
      rw [List.replicate_succ, runLoop_cons]
      have hcont : (passStep p s PassOutcome.cacheStale).2.2 = true := rfl
      rw [hcont]
      simpa using ih (p + 1) (passStep p s PassOutcome.cacheStale).1

theorem ootsFail_five_passes (s : TermWindowState) (size current : Nat)
    (rest : List PassOutcome) (h : s.allow_images = AllowImage.Yes) :
    (runLoop 0 s
      (List.replicate 5 (PassOutcome.oots (some size) current false) ++
        rest)).2.2 = true ∧
    buildCount (runLoop 0 s
      (List.replicate 5 (PassOutcome.oots (some size) current false) ++
        rest)).2.1 = 5 := by
  obtain ⟨nf, fps, lct, lfd, ai, ha, sa, foc, sg, sc, lsc, ftb, mv, dr⟩ := s
  obtain rfl : ai = AllowImage.Yes := h
  exact ⟨rfl, rfl⟩

/-- Claim C3 (amended): the loop body is `for pass in 0..` with no
maximum-iterations guard.  Only the atlas-recreation-failure path is
bounded: starting from full fidelity, five consecutive
`ResourceExhausted`-with-failed-recreation passes walk the whole
degradation ladder and the loop aborts on the fifth pass, for any
continuation of the script; but a collaborator returning `CacheStale`
forever keeps the loop running without bound (for every script length the
loop has not exited). -/
theorem loop_retry_bounds :
    (∀ (s : TermWindowState) (size current : Nat) (rest : List PassOutcome),
      s.allow_images = AllowImage.Yes →
      (runLoop 0 s
        (List.replicate 5 (PassOutcome.oots (some size) current false) ++
          rest)).2.2 = true ∧
      buildCount (runLoop 0 s
        (List.replicate 5 (PassOutcome.oots (some size) current false) ++
          rest)).2.1 = 5) ∧
    (∀ (n p : Nat) (s : TermWindowState),
      (runLoop p s (List.replicate n PassOutcome.cacheStale)).2.2 = false) :=
  ⟨fun s size current rest h => ootsFail_five_passes s size current rest h,
   fun n p s => cacheStale_never_exits n p s⟩

/-- Witness for `loop_retry_bounds` at a concrete state and script. -/
theorem loop_retry_bounds_witness :
    (runLoop 0 initState
      (List.replicate 5 (PassOutcome.oots (some 4096) 2048 false) ++
        [])).2.2 = true ∧
    (runLoop 0 initState (List.replicate 3 PassOutcome.cacheStale)).2.2 =
      false :=
  ⟨(loop_retry_bounds.1 initState 4096 2048 [] (by decide)).1,
   loop_retry_bounds.2 3 0 initState⟩

end Paint
